import Mathlib

/-!
Verification of the LEGO inventory service core against its sources.

The definitions below are a shallow embedding of the Python sources:
  - `app/core/states.py`, `app/core/models.py` (data model),
  - `app/infrastructure/db.py` (SQLite repositories, modelled as pure
    state-passing functions over a list of rows),
  - `app/core/services.py` (`InventoryService.add_set`),
  - `app/infrastructure/bricklink_catalog.py` (normalization, caching,
    exception translation),
  - `app/infrastructure/oauth_client.py` (signed client retry policy).
Machine-level concerns (SQL engine, HTTP transport, OAuth signing) are
represented by explicit oracles/state so that all behaviour relevant to the
claims is a pure function of the inputs.
-/

namespace Lego

/-- `PieceState` from `app/core/states.py`: a string-valued enumeration. -/
inductive PieceState where
  | MISSING
  | OWNED_LOCKED
  | OWNED_FREE
deriving DecidableEq

/-- The `.value` of the Python `str`-enum member, as stored in the database. -/
def PieceState.value : PieceState → String
  | .MISSING => "MISSING"
  | .OWNED_LOCKED => "OWNED_LOCKED"
  | .OWNED_FREE => "OWNED_FREE"

/-- `LegoSet` from `app/core/models.py`. -/
structure LegoSet where
  set_no : String
  name : String
  assembled : Bool
deriving DecidableEq

/-- `Part` from `app/core/models.py`. -/
structure Part where
  part_no : String
  color_id : Int
  name : String
deriving DecidableEq

/-- `SetMetadata` from `app/core/catalog_interface.py`.  The `weight` and
`dimensions` payloads are never computed with by the core; they are carried
opaquely as the raw provider value. -/
structure SetMetadata where
  set_no : String
  name : String
  year : Option Int
  theme : Option String
  num_parts : Option Int
  image_url : Option String
  weight : Option String
  dimensions : Option String
deriving DecidableEq

/-- `InventoryPart` from `app/core/catalog_interface.py`. -/
structure InventoryPart where
  part_no : String
  color_id : Int
  qty : Int
  name : String
  is_spare : Bool
  is_counterpart : Bool
deriving DecidableEq

/-- One row of the `inventory` table of `app/infrastructure/db.py`; `id` is the
autoincrement primary key, `state` the stored `PieceState.value` string. -/
structure InvRow where
  id : Nat
  set_no : String
  part_no : String
  color_id : Int
  qty : Int
  state : String
deriving DecidableEq

/-- The row filter of `SqliteInventoryRepository.add_part`'s SELECT:
same set number, part number and color id. -/
def matchesTriple (set_no part_no : String) (color_id : Int) (r : InvRow) : Bool :=
  r.set_no == set_no && r.part_no == part_no && r.color_id == color_id

/-- `SqliteInventoryRepository.add_part` (`app/infrastructure/db.py`):
select the first row with the same (set_no, part_no, color_id); if one exists,
update that row (by primary key) adding `qty` and overwriting `state`;
otherwise insert a new row.  Fresh primary keys are modelled as the current
table length (rows are never deleted). -/
def add_part (inv : List InvRow) (set_no : String) (part : Part) (qty : Int)
    (state : PieceState) : List InvRow :=
  match inv.find? (matchesTriple set_no part.part_no part.color_id) with
  | some existing =>
      inv.map fun r =>
        if r.id == existing.id then
          { r with qty := existing.qty + qty, state := state.value }
        else r
  | none =>
      inv ++ [{ id := inv.length, set_no := set_no, part_no := part.part_no,
                color_id := part.color_id, qty := qty, state := state.value }]

/-- The row filter of `SqliteInventoryRepository.update_item`'s SELECT: it
matches on part number and color id only, ignoring the set number. -/
def matchesPartColor (part_no : String) (color_id : Int) (r : InvRow) : Bool :=
  r.part_no == part_no && r.color_id == color_id

/-- `SqliteInventoryRepository.update_item` (`app/infrastructure/db.py`):
select the first row with the given (part_no, color_id) — any set; if none,
return `false` leaving the table unchanged; otherwise overwrite that row's
`qty` and `state` (by primary key) and return `true`. -/
def update_item (inv : List InvRow) (part_no : String) (color_id : Int)
    (qty : Int) (state : PieceState) : Bool × List InvRow :=
  match inv.find? (matchesPartColor part_no color_id) with
  | none => (false, inv)
  | some row =>
      (true, inv.map fun r =>
        if r.id == row.id then { r with qty := qty, state := state.value } else r)

/-- The persistent store: the `sets` table and the `inventory` table. -/
structure Store where
  sets : List LegoSet
  inventory : List InvRow
deriving DecidableEq

/-- The domain error taxonomy of `app/core/exceptions.py` (catalog side). -/
inductive CatalogError where
  | auth (msg : String)
  | notFound (msg : String)
  | rateLimit (msg : String)
  | api (msg : String)
  | timeout (msg : String)
deriving DecidableEq

/-- An exception escaping `InventoryService.add_set`: a catalog error from
either fetch, or a database `IntegrityError` from the set insert.  In Python
both propagate unchanged as exceptions of one hierarchy; the embedding tags
them to form their disjoint union. -/
inductive ServiceError where
  | catalog (e : CatalogError)
  | integrity (msg : String)
deriving DecidableEq

/-- `SqliteSetsRepository.add` (`app/infrastructure/db.py`): INSERT into
`sets`.  The unique index on `sets.set_no` (db.py:33) makes the insert raise
`IntegrityError` when a record with the same set number already exists;
otherwise the record is appended. -/
def sets_add (sets : List LegoSet) (ls : LegoSet) : Except String (List LegoSet) :=
  if sets.any (fun s => s.set_no == ls.set_no) then
    Except.error "UNIQUE constraint failed: sets.set_no"
  else
    Except.ok (sets ++ [ls])

/-- `InventoryService.add_set` (`app/core/services.py`): fetch metadata, fetch
inventory (either fetch's error propagates), persist the set record via
`sets_add` (whose `IntegrityError` on a duplicate set number aborts the
operation before any part upsert — the service does not catch it), compute
the initial state from `assembled`, and upsert every fetched part via
`add_part`.  The catalog service is passed as the two fetch functions. -/
def add_set (fetch_metadata : String → Except CatalogError SetMetadata)
    (fetch_inventory : String → Except CatalogError (List InventoryPart))
    (st : Store) (set_no : String) (assembled : Bool) :
    Except ServiceError (LegoSet × Store) := do
  let set_meta ← (fetch_metadata set_no).mapError ServiceError.catalog
  let parts ← (fetch_inventory set_no).mapError ServiceError.catalog
  let lego_set : LegoSet := { set_no := set_no, name := set_meta.name, assembled := assembled }
  let sets1 ← (sets_add st.sets lego_set).mapError ServiceError.integrity
  let state := if assembled then PieceState.OWNED_LOCKED else PieceState.OWNED_FREE
  let inv1 := parts.foldl
    (fun acc p =>
      add_part acc set_no { part_no := p.part_no, color_id := p.color_id, name := p.name }
        p.qty state)
    st.inventory
  return (lego_set, { sets := sets1, inventory := inv1 })

/-- The expected rows appended by a fresh `add_set` run: one row per fetched
part, with consecutive primary keys starting at `n`. -/
def rowsFrom (s : String) (state : PieceState) : Nat → List InventoryPart → List InvRow
  | _, [] => []
  | n, p :: ps =>
      { id := n, set_no := s, part_no := p.part_no, color_id := p.color_id,
        qty := p.qty, state := state.value } :: rowsFrom s state (n + 1) ps

/-- The inventory-table invariant: at most one row per
(set number, part number, color id) triple. -/
def distinctTriples (inv : List InvRow) : Prop :=
  inv.Pairwise fun r1 r2 =>
    ¬ (r1.set_no = r2.set_no ∧ r1.part_no = r2.part_no ∧ r1.color_id = r2.color_id)

/-- The transport-level failures an adapter call can observe, as distinguished
by `BricklinkCatalogService._convert_exception`: a `requests` `HTTPError` with
its response status, a `Timeout`, a `ConnectionError`, or any other exception.
`msg` is the exception's rendered message. -/
inductive TransportFailure where
  | httpError (status : Nat) (msg : String)
  | timeout (msg : String)
  | connectionError (msg : String)
  | other (msg : String)
deriving DecidableEq

/-- `BricklinkCatalogService._convert_exception`
(`app/infrastructure/bricklink_catalog.py`). -/
def convert_exception : TransportFailure → CatalogError
  | .httpError status msg =>
      if status == 401 || status == 403 then
        .auth ("Bricklink authentication failed: " ++ msg)
      else if status == 404 then
        .notFound ("Set not found in Bricklink catalog: " ++ msg)
      else if status == 429 then
        .rateLimit ("Bricklink rate limit exceeded: " ++ msg)
      else
        .api ("Bricklink API error (status " ++ toString status ++ "): " ++ msg)
  | .timeout msg => .timeout ("Bricklink request timed out: " ++ msg)
  | .connectionError msg => .api ("Failed to connect to Bricklink: " ++ msg)
  | .other msg => .api ("Bricklink API error: " ++ msg)

/-- The `data` object of the provider's item endpoint payload; every field is
optional, mirroring the `.get` accesses in `fetch_set_metadata`. -/
structure ItemData where
  no : Option String
  name : Option String
  year_released : Option Int
  category_name : Option String
  image_url : Option String
  weight : Option String
  dim : Option String
deriving DecidableEq

/-- The empty dict that `response.get("data", {})` falls back to. -/
def ItemData.empty : ItemData := ⟨none, none, none, none, none, none, none⟩

/-- The item endpoint payload: `{"data": {...}}`, with the `data` key possibly
absent. -/
structure ItemResponse where
  data : Option ItemData
deriving DecidableEq

/-- The normalization step of `BricklinkCatalogService.fetch_set_metadata`:
`data.get("no", set_no)`, `data.get("name", "")`, and pass-through of the
optional fields (`num_parts` is always `None`). -/
def normalize_metadata (set_no : String) (resp : ItemResponse) : SetMetadata :=
  let d := resp.data.getD ItemData.empty
  { set_no := d.no.getD set_no
    name := d.name.getD ""
    year := d.year_released
    theme := d.category_name
    num_parts := none
    image_url := d.image_url
    weight := d.weight
    dimensions := d.dim }

/-- The `item` object of a subsets-endpoint entry. -/
structure SubsetItem where
  type : Option String
  no : Option String
  name : Option String
deriving DecidableEq

/-- The empty dict that `item.get("item", {})` falls back to. -/
def SubsetItem.empty : SubsetItem := ⟨none, none, none⟩

/-- One entry of a subsets-endpoint block, mirroring the `.get` accesses in
`fetch_set_inventory`. -/
structure SubsetEntry where
  item : Option SubsetItem
  color_id : Option Int
  quantity : Option Int
  is_alternate : Option Bool
  is_counterpart : Option Bool
deriving DecidableEq

/-- One block of the subsets payload: `{"entries": [...]}`. -/
structure SubsetBlock where
  entries : Option (List SubsetEntry)
deriving DecidableEq

/-- The subsets endpoint payload: `{"data": [...]}`. -/
structure SubsetsResponse where
  data : Option (List SubsetBlock)
deriving DecidableEq

/-- `item.get("item", {}).get("type")` of a raw entry. -/
def entryType (e : SubsetEntry) : Option String :=
  (e.item.getD SubsetItem.empty).type

/-- The `InventoryPart` built from one raw entry in
`BricklinkCatalogService.fetch_set_inventory`. -/
def entryToPart (e : SubsetEntry) : InventoryPart :=
  { part_no := (e.item.getD SubsetItem.empty).no.getD ""
    color_id := e.color_id.getD 0
    qty := e.quantity.getD 1
    name := (e.item.getD SubsetItem.empty).name.getD ""
    is_spare := e.is_alternate.getD false
    is_counterpart := e.is_counterpart.getD false }

/-- The parsing loop of `BricklinkCatalogService.fetch_set_inventory`: for each
block of `data`, for each entry of its `entries`, keep the entry iff its item
type is exactly `"PART"`. -/
def normalize_inventory (resp : SubsetsResponse) : List InventoryPart :=
  (resp.data.getD []).flatMap fun block =>
    (block.entries.getD []).filterMap fun e =>
      if entryType e == some "PART" then some (entryToPart e) else none

/-- All raw entries of a subsets payload, flattened in order but unfiltered
(used to state what `normalize_inventory` keeps and drops). -/
def flattenEntries (resp : SubsetsResponse) : List SubsetEntry :=
  (resp.data.getD []).flatMap fun block => block.entries.getD []

/-- One entry of a time-bounded cache: the cached value and its absolute
expiry instant. -/
structure CacheEntry (α : Type) where
  expiry : Nat
  val : α
deriving DecidableEq

/-- Modelled from the spec: the time-bounded key→value cache semantics of the
`cachetools.TTLCache` dependency used by `BricklinkCatalogService` (the
library is not part of this repository's sources).  Per the spec's Cache
Entry model, a key maps to a value plus an expiry timestamp; an entry is
visible only before its expiry.  Capacity-based LRU eviction is not modelled:
the claims below only exercise presence/expiry behaviour of a single key. -/
structure TTLStore (α : Type) where
  ttl : Nat
  entries : List (String × CacheEntry α)
deriving DecidableEq

/-- Cache membership plus read (`set_no in cache` / `cache[set_no]`): the
entry for the key, provided it has not expired at instant `now`. -/
def TTLStore.lookup (c : TTLStore α) (now : Nat) (key : String) : Option α :=
  match c.entries.find? (fun e => e.1 == key) with
  | some e => if now < e.2.expiry then some e.2.val else none
  | none => none

/-- Cache write (`cache[set_no] = value`): the key now maps to `v`, expiring
`ttl` after the write instant; any previous entry for the key is replaced. -/
def TTLStore.insert (c : TTLStore α) (now : Nat) (key : String) (v : α) :
    TTLStore α :=
  { c with entries :=
      (key, { expiry := now + c.ttl, val := v }) :: c.entries.filter (fun e => e.1 != key) }

/-- `BricklinkCatalogService.fetch_set_metadata`
(`app/infrastructure/bricklink_catalog.py`), with the OAuth client as an
oracle from set number to transport result and the metadata cache passed
explicitly; the third component counts the client calls issued (0 or 1).
On a hit the cached value is returned with no client call; on a miss one
signed GET is issued, the normalized result is cached before being returned,
and any raised failure is translated by `convert_exception`. -/
def fetch_set_metadata (client : String → Except TransportFailure ItemResponse)
    (cache : TTLStore SetMetadata) (now : Nat) (set_no : String) :
    Except CatalogError SetMetadata × TTLStore SetMetadata × Nat :=
  match cache.lookup now set_no with
  | some v => (.ok v, cache, 0)
  | none =>
      match client set_no with
      | .ok resp =>
          let m := normalize_metadata set_no resp
          (.ok m, cache.insert now set_no m, 1)
      | .error e => (.error (convert_exception e), cache, 1)

/-- `BricklinkCatalogService.fetch_set_inventory`
(`app/infrastructure/bricklink_catalog.py`), embedded like
`fetch_set_metadata` but over its own dedicated cache. -/
def fetch_set_inventory (client : String → Except TransportFailure SubsetsResponse)
    (cache : TTLStore (List InventoryPart)) (now : Nat) (set_no : String) :
    Except CatalogError (List InventoryPart) × TTLStore (List InventoryPart) × Nat :=
  match cache.lookup now set_no with
  | some v => (.ok v, cache, 0)
  | none =>
      match client set_no with
      | .ok resp =>
          let ps := normalize_inventory resp
          (.ok ps, cache.insert now set_no ps, 1)
      | .error e => (.error (convert_exception e), cache, 1)

/-- A sequence of metadata fetches for the same set number at the given
instants, threading the cache and summing the client calls issued. -/
def fetchMetadataMany (client : String → Except TransportFailure ItemResponse)
    (set_no : String) : TTLStore SetMetadata → List Nat → TTLStore SetMetadata × Nat
  | cache, [] => (cache, 0)
  | cache, t :: ts =>
      let r := fetch_set_metadata client cache t set_no
      let rest := fetchMetadataMany client set_no r.2.1 ts
      (rest.1, r.2.2 + rest.2)

/-- An exception raised by one underlying HTTP attempt, carrying its Python
class.  The `requests` session raises `requests.exceptions.ConnectionError`
and `requests.exceptions.Timeout`, which derive from
`RequestException(IOError)` and are NOT subclasses of the builtin
`ConnectionError`/`TimeoutError`; the builtin classes are listed separately
because the decorator's retry predicate names exactly those. -/
inductive RaisedException where
  | requestsConnectionError (msg : String)
  | requestsTimeout (msg : String)
  | builtinConnectionError (msg : String)
  | builtinTimeoutError (msg : String)
deriving DecidableEq

/-- `isinstance(e, (ConnectionError, TimeoutError))` over the builtins: true
only for the builtin classes; the `requests` exception classes do not
subclass them. -/
def RaisedException.isBuiltinConnOrTimeout : RaisedException → Bool
  | .builtinConnectionError _ => true
  | .builtinTimeoutError _ => true
  | .requestsConnectionError _ => false
  | .requestsTimeout _ => false

/-- The outcome of one underlying HTTP attempt inside `OAuthHTTPClient.get` /
`.post`: the session call raises an exception, or returns a response with a
status code. -/
inductive Outcome where
  | raised (e : RaisedException)
  | response (status : Nat)
deriving DecidableEq

/-- What one attempt of the decorated body produces: the parsed body, an
`HTTPError` from `raise_for_status`, or the session's raised exception. -/
inductive CallResult where
  | jsonBody (status : Nat)
  | httpError (status : Nat)
  | raisedExc (e : RaisedException)
deriving DecidableEq

/-- One attempt of the body of `OAuthHTTPClient.get`/`.post`: issue the
request and call `response.raise_for_status()`, which turns a 4xx/5xx
response into an `HTTPError`; a raised exception propagates as itself. -/
def attemptCall : Outcome → CallResult
  | .raised e => .raisedExc e
  | .response s => if 400 ≤ s then .httpError s else .jsonBody s

/-- The retry predicate of the decorator,
`retry_if_exception_type((ConnectionError, TimeoutError))`: an isinstance
test against the BUILTIN `ConnectionError`/`TimeoutError` classes.  HTTP
error responses are not exceptions of those types, and neither are the
`requests` transport exceptions the session actually raises. -/
def CallResult.transient : CallResult → Bool
  | .raisedExc e => e.isBuiltinConnOrTimeout
  | _ => false

/-- The wait before the retry that follows failed attempt number `attempt`:
`wait_exponential(multiplier=1, min=2, max=10)`. -/
def waitAfter (attempt : Nat) : Nat := min (max (2 ^ attempt) 2) 10

/-- Modelled from the spec: the retry loop of the `tenacity` decorator on
`OAuthHTTPClient.get`/`.post` (the library is not part of this repository's
sources).  `attempt` is the 1-based attempt number and `fuel` the attempts
still allowed.  A transient result is retried after `waitAfter attempt`
until the attempt ceiling, where the last failure is re-raised
(`reraise=True`); a non-transient result ends the loop at once.  Returns the
final result, the number of attempts used, and the waits taken. -/
def runRetries (outcomes : Nat → Outcome) : Nat → Nat → CallResult × Nat × List Nat
  | attempt, 0 => (attemptCall (outcomes attempt), 1, [])
  | attempt, fuel + 1 =>
      let r := attemptCall (outcomes attempt)
      if fuel = 0 then (r, 1, [])
      else if r.transient then
        let rest := runRetries outcomes (attempt + 1) fuel
        (rest.1, rest.2.1 + 1, waitAfter attempt :: rest.2.2)
      else (r, 1, [])

/-- `OAuthHTTPClient.get` (`app/infrastructure/oauth_client.py`): the body
run under `stop_after_attempt(3)`. -/
def oauthGet (outcomes : Nat → Outcome) : CallResult × Nat × List Nat :=
  runRetries outcomes 1 3

/-- `OAuthHTTPClient.post` (`app/infrastructure/oauth_client.py`): same
decorator, same policy. -/
def oauthPost (outcomes : Nat → Outcome) : CallResult × Nat × List Nat :=
  runRetries outcomes 1 3

/-! ## Helper lemmas -/

/-- Computation rule for the `Except` monad's bind on a success value. -/
theorem except_bind_ok {ε α β : Type} (a : α) (f : α → Except ε β) :
    (Except.ok (ε := ε) a >>= f) = f a := rfl

/-- Computation rule for the `Except` monad's pure. -/
theorem except_pure_eq_ok {ε α : Type} (a : α) :
    (pure a : Except ε α) = Except.ok a := rfl

/-- Computation rule for `Except.mapError` on a success value. -/
theorem except_mapError_ok {ε ζ α : Type} (f : ε → ζ) (a : α) :
    (Except.ok a : Except ε α).mapError f = Except.ok a := rfl

/-- Computation rule for `Except.mapError` on an error value. -/
theorem except_mapError_error {ε ζ α : Type} (f : ε → ζ) (e : ε) :
    (Except.error e : Except ε α).mapError f = Except.error (f e) := rfl

/-- Computation rule for the `Except` monad's bind on an error value. -/
theorem except_bind_error {ε α β : Type} (e : ε) (f : α → Except ε β) :
    (Except.error (α := α) e >>= f) = Except.error e := rfl

/-- Inserting a set record whose number occurs nowhere in the table
succeeds, appending the record. -/
theorem sets_add_fresh (sets : List LegoSet) (ls : LegoSet)
    (h : ∀ s ∈ sets, s.set_no ≠ ls.set_no) :
    sets_add sets ls = Except.ok (sets ++ [ls]) := by
  have hany : sets.any (fun s => s.set_no == ls.set_no) = false := by
    rw [List.any_eq_false]
    intro s hs
    simpa using h s hs
  simp [sets_add, hany]

/-- Updating, by primary key, the distinguished row of a table whose primary
keys are pairwise distinct rewrites exactly that row and leaves every other
row in place. -/
theorem map_update_by_id (l1 l2 : List InvRow) (e : InvRow) (g : InvRow → InvRow)
    (hids : (l1 ++ e :: l2).Pairwise fun a b => a.id ≠ b.id) :
    (l1 ++ e :: l2).map (fun r => if r.id == e.id then g r else r) = l1 ++ g e :: l2 := by
  have h1 : ∀ a ∈ l1, a.id ≠ e.id := fun a ha =>
    (List.pairwise_append.mp hids).2.2 a ha e (List.mem_cons_self _ _)
  have h2 : ∀ b ∈ l2, b.id ≠ e.id := by
    intro b hb hbe
    exact (List.pairwise_cons.mp (List.pairwise_append.mp hids).2.1).1 b hb hbe.symm
  rw [List.map_append, List.map_cons]
  have e1 : l1.map (fun r => if r.id == e.id then g r else r) = l1 := by
    trans l1.map id
    · exact List.map_congr_left fun a ha => by simp [h1 a ha]
    · exact List.map_id _
  have e2 : l2.map (fun r => if r.id == e.id then g r else r) = l2 := by
    trans l2.map id
    · exact List.map_congr_left fun b hb => by simp [h2 b hb]
    · exact List.map_id _
  rw [e1, e2]
  simp

/-- `add_part` on a table with no row for the upserted triple appends exactly
one new row carrying the given quantity and state. -/
theorem add_part_fresh (inv : List InvRow) (s : String) (part : Part) (q : Int)
    (st : PieceState)
    (h : ∀ r ∈ inv, matchesTriple s part.part_no part.color_id r = false) :
    add_part inv s part q st
      = inv ++ [{ id := inv.length, set_no := s, part_no := part.part_no,
                  color_id := part.color_id, qty := q, state := st.value }] := by
  have hf : inv.find? (matchesTriple s part.part_no part.color_id) = none := by
    rw [List.find?_eq_none]
    intro r hr
    simp [h r hr]
  simp [add_part, hf]

/-! ## Claim theorems -/

/-- C8: `update_item` for a (part_no, color_id) pair matched by no inventory
row returns `false` (the not-found signal) and leaves the store completely
unchanged. -/
theorem update_item_missing_pair_noop (inv : List InvRow) (p : String) (c : Int)
    (q : Int) (s : PieceState)
    (h : ∀ r ∈ inv, ¬ (r.part_no = p ∧ r.color_id = c)) :
    update_item inv p c q s = (false, inv) := by
  have hf : inv.find? (matchesPartColor p c) = none := by
    rw [List.find?_eq_none]
    intro r hr
    simpa [matchesPartColor] using h r hr
  simp [update_item, hf]

/-- Witness for C8 on a concrete store: no row has part "3020", so the update
signals not-found and the single row is untouched. -/
theorem update_item_missing_pair_noop_witness :
    update_item [⟨0, "8888", "3001", 1, 4, "OWNED_FREE"⟩] "3020" 1 5 PieceState.OWNED_FREE
      = (false, [⟨0, "8888", "3001", 1, 4, "OWNED_FREE"⟩]) :=
  update_item_missing_pair_noop _ _ _ _ _ (by decide)

/-- C9: when some row matches the (part_no, color_id) pair, `update_item`
returns `true` and rewrites exactly the first matching row — chosen by a
filter that ignores the set number — overwriting its quantity and state with
the given values and leaving every other row unchanged. -/
theorem update_item_first_match_frame (inv : List InvRow) (p : String) (c : Int)
    (q : Int) (s : PieceState) (e : InvRow)
    (hids : inv.Pairwise fun a b => a.id ≠ b.id)
    (hfind : inv.find? (matchesPartColor p c) = some e) :
    (update_item inv p c q s).1 = true ∧
    e.part_no = p ∧ e.color_id = c ∧
    ∃ l1 l2, inv = l1 ++ e :: l2 ∧
      (∀ a ∈ l1, matchesPartColor p c a = false) ∧
      (update_item inv p c q s).2 = l1 ++ { e with qty := q, state := s.value } :: l2 := by
  have hpe : e.part_no = p ∧ e.color_id = c := by
    simpa [matchesPartColor] using List.find?_some hfind
  obtain ⟨-, l1, l2, hsplit, hprior⟩ := List.find?_eq_some.mp hfind
  subst hsplit
  refine ⟨by simp [update_item, hfind], hpe.1, hpe.2, l1, l2, rfl, ?_, ?_⟩
  · intro a ha
    simpa using hprior a ha
  · simp only [update_item, hfind]
    exact map_update_by_id l1 l2 e _ hids

/-- Witness for C9: the first (and only) row matching part "3020" color 5
belongs to another set than the one matching part "3001"; it alone is
overwritten. -/
theorem update_item_first_match_frame_witness :
    (update_item [⟨0, "1111", "3001", 1, 4, "OWNED_FREE"⟩,
                  ⟨1, "2222", "3020", 5, 2, "OWNED_FREE"⟩] "3020" 5 9 PieceState.OWNED_LOCKED).1 = true ∧
    (⟨1, "2222", "3020", 5, 2, "OWNED_FREE"⟩ : InvRow).part_no = "3020" ∧
    (⟨1, "2222", "3020", 5, 2, "OWNED_FREE"⟩ : InvRow).color_id = 5 ∧
    ∃ l1 l2,
      [⟨0, "1111", "3001", 1, 4, "OWNED_FREE"⟩, ⟨1, "2222", "3020", 5, 2, "OWNED_FREE"⟩]
        = l1 ++ (⟨1, "2222", "3020", 5, 2, "OWNED_FREE"⟩ : InvRow) :: l2 ∧
      (∀ a ∈ l1, matchesPartColor "3020" 5 a = false) ∧
      (update_item [⟨0, "1111", "3001", 1, 4, "OWNED_FREE"⟩,
                    ⟨1, "2222", "3020", 5, 2, "OWNED_FREE"⟩] "3020" 5 9 PieceState.OWNED_LOCKED).2
        = l1 ++ { (⟨1, "2222", "3020", 5, 2, "OWNED_FREE"⟩ : InvRow) with
                    qty := 9, state := PieceState.OWNED_LOCKED.value } :: l2 :=
  update_item_first_match_frame _ _ _ _ _ _ (by decide) (by decide)

/-- C3 (amended): `add_part` preserves the one-row-per-(set, part, color)
invariant: with an existing row for the triple it rewrites exactly that row
in place, adding the quantity and overwriting the state, instead of
inserting a second row; without one it appends a single fresh row.
Re-adding the same set, however, never reaches these part upserts: with both
fetches succeeding, a store already holding a set record with that number
makes `add_set` fail on the `sets.set_no` unique constraint before any
`add_part` runs. -/
theorem add_part_upsert_invariant (inv : List InvRow) (s : String) (part : Part)
    (q : Int) (st : PieceState)
    (hids : inv.Pairwise fun a b => a.id ≠ b.id)
    (hinv : distinctTriples inv) :
    distinctTriples (add_part inv s part q st) ∧
    (∀ e, inv.find? (matchesTriple s part.part_no part.color_id) = some e →
      ∃ l1 l2, inv = l1 ++ e :: l2 ∧
        add_part inv s part q st
          = l1 ++ { e with qty := e.qty + q, state := st.value } :: l2) ∧
    ((∀ r ∈ inv, matchesTriple s part.part_no part.color_id r = false) →
      add_part inv s part q st
        = inv ++ [{ id := inv.length, set_no := s, part_no := part.part_no,
                    color_id := part.color_id, qty := q, state := st.value }]) ∧
    (∀ (fm : String → Except CatalogError SetMetadata)
        (fi : String → Except CatalogError (List InventoryPart))
        (stg : Store) (assembled : Bool) (m : SetMetadata) (ps : List InventoryPart),
      fm s = Except.ok m → fi s = Except.ok ps →
      (∃ ls ∈ stg.sets, ls.set_no = s) →
      add_set fm fi stg s assembled
        = Except.error (ServiceError.integrity "UNIQUE constraint failed: sets.set_no")) := by
  refine ⟨?_, ?_, add_part_fresh inv s part q st, ?_⟩
  · cases hcase : inv.find? (matchesTriple s part.part_no part.color_id) with
    | some e =>
        simp only [add_part, hcase]
        unfold distinctTriples at hinv ⊢
        rw [List.pairwise_map]
        refine hinv.imp ?_
        intro a b hab
        by_cases ha : a.id == e.id <;> by_cases hb : b.id == e.id <;>
          simpa [ha, hb] using hab
    | none =>
        simp only [add_part, hcase]
        unfold distinctTriples at hinv ⊢
        rw [List.pairwise_append]
        refine ⟨hinv, List.pairwise_singleton _ _, ?_⟩
        intro a ha b hb
        have hfalse := List.find?_eq_none.mp hcase a ha
        simp only [List.mem_singleton] at hb
        subst hb
        simp only [matchesTriple, Bool.and_eq_true, beq_iff_eq] at hfalse
        intro htriple
        exact hfalse ⟨⟨htriple.1, htriple.2.1⟩, htriple.2.2⟩
  · intro e hfind
    obtain ⟨-, l1, l2, hsplit, -⟩ := List.find?_eq_some.mp hfind
    subst hsplit
    refine ⟨l1, l2, rfl, ?_⟩
    simp only [add_part, hfind]
    exact map_update_by_id l1 l2 e _ hids
  · intro fm fi stg assembled m ps hm hp hdup
    obtain ⟨ls, hls, hlsno⟩ := hdup
    have hany : stg.sets.any
        (fun x => x.set_no ==
          ({ set_no := s, name := m.name, assembled := assembled } : LegoSet).set_no) = true :=
      List.any_eq_true.mpr ⟨ls, hls, by simp [hlsno]⟩
    simp [add_set, hm, hp, except_mapError_ok, except_bind_ok, sets_add, hany,
      except_mapError_error, except_bind_error]

/-- C3 counterexample: re-adding set "8888" — already persisted with one
inventory row of quantity 4 — does not increment that quantity: the unique
index on `sets.set_no` makes the second `add_set`'s set insert fail with
`IntegrityError` before any part upsert runs. -/
theorem readd_same_set_not_incremented :
    add_set (fun _ => Except.ok ⟨"8888", "Test Set", none, none, none, none, none, none⟩)
        (fun _ => Except.ok [⟨"3001", 1, 4, "Brick 2 x 4", false, false⟩])
        ⟨[⟨"8888", "Test Set", false⟩], [⟨0, "8888", "3001", 1, 4, "OWNED_FREE"⟩]⟩
        "8888" true
      = Except.error (ServiceError.integrity "UNIQUE constraint failed: sets.set_no") := rfl

/-- Witness for C3 on a concrete store: re-upserting the existing
(set "8888", part "3001", color 1) row adds 4 to its quantity and overwrites
its state, keeping a single row; and with set "8888" already persisted, a
second `add_set` for it fails on the unique constraint. -/
theorem add_part_upsert_invariant_witness :
    distinctTriples (add_part [⟨0, "8888", "3001", 1, 4, "OWNED_FREE"⟩] "8888"
      ⟨"3001", 1, "Brick 2 x 4"⟩ 4 PieceState.OWNED_LOCKED) ∧
    (∀ e, ([⟨0, "8888", "3001", 1, 4, "OWNED_FREE"⟩] : List InvRow).find?
          (matchesTriple "8888" (Part.mk "3001" 1 "Brick 2 x 4").part_no
            (Part.mk "3001" 1 "Brick 2 x 4").color_id) = some e →
      ∃ l1 l2, [⟨0, "8888", "3001", 1, 4, "OWNED_FREE"⟩] = l1 ++ e :: l2 ∧
        add_part [⟨0, "8888", "3001", 1, 4, "OWNED_FREE"⟩] "8888"
            ⟨"3001", 1, "Brick 2 x 4"⟩ 4 PieceState.OWNED_LOCKED
          = l1 ++ { e with qty := e.qty + 4, state := PieceState.OWNED_LOCKED.value } :: l2) ∧
    ((∀ r ∈ ([⟨0, "8888", "3001", 1, 4, "OWNED_FREE"⟩] : List InvRow),
        matchesTriple "8888" (Part.mk "3001" 1 "Brick 2 x 4").part_no
          (Part.mk "3001" 1 "Brick 2 x 4").color_id r = false) →
      add_part [⟨0, "8888", "3001", 1, 4, "OWNED_FREE"⟩] "8888"
          ⟨"3001", 1, "Brick 2 x 4"⟩ 4 PieceState.OWNED_LOCKED
        = [⟨0, "8888", "3001", 1, 4, "OWNED_FREE"⟩]
          ++ [{ id := 1, set_no := "8888", part_no := (Part.mk "3001" 1 "Brick 2 x 4").part_no,
                color_id := (Part.mk "3001" 1 "Brick 2 x 4").color_id, qty := 4,
                state := PieceState.OWNED_LOCKED.value }]) ∧
    (∀ (fm : String → Except CatalogError SetMetadata)
        (fi : String → Except CatalogError (List InventoryPart))
        (stg : Store) (assembled : Bool) (m : SetMetadata) (ps : List InventoryPart),
      fm "8888" = Except.ok m → fi "8888" = Except.ok ps →
      (∃ ls ∈ stg.sets, ls.set_no = "8888") →
      add_set fm fi stg "8888" assembled
        = Except.error (ServiceError.integrity "UNIQUE constraint failed: sets.set_no")) :=
  add_part_upsert_invariant [⟨0, "8888", "3001", 1, 4, "OWNED_FREE"⟩] "8888"
    ⟨"3001", 1, "Brick 2 x 4"⟩ 4 PieceState.OWNED_LOCKED (by decide)
    (by unfold distinctTriples; decide)

/-- Folding `add_part` over fetched parts with pairwise-distinct
(part, color) pairs, over a table holding no row for any of them under the
target set number, appends exactly one fresh row per part. -/
theorem foldl_add_part_fresh (s : String) (st : PieceState) :
    ∀ (parts : List InventoryPart) (inv : List InvRow),
      (∀ p ∈ parts, ∀ r ∈ inv, matchesTriple s p.part_no p.color_id r = false) →
      parts.Pairwise (fun a b => a.part_no ≠ b.part_no ∨ a.color_id ≠ b.color_id) →
      parts.foldl
          (fun acc p =>
            add_part acc s { part_no := p.part_no, color_id := p.color_id, name := p.name }
              p.qty st)
          inv
        = inv ++ rowsFrom s st inv.length parts := by
  intro parts
  induction parts with
  | nil => intro inv _ _; simp [rowsFrom]
  | cons p ps ih =>
      intro inv hfresh hdist
      have hstep := add_part_fresh inv s ⟨p.part_no, p.color_id, p.name⟩ p.qty st
        (hfresh p (List.mem_cons_self _ _))
      rw [List.foldl_cons, hstep]
      have hrel : ∀ q ∈ ps, p.part_no ≠ q.part_no ∨ p.color_id ≠ q.color_id :=
        (List.pairwise_cons.mp hdist).1
      have hfresh2 : ∀ q ∈ ps, ∀ r ∈ inv ++
          [{ id := inv.length, set_no := s, part_no := p.part_no,
             color_id := p.color_id, qty := p.qty, state := st.value }],
          matchesTriple s q.part_no q.color_id r = false := by
        intro q hq r hr
        rcases List.mem_append.mp hr with hr | hr
        · exact hfresh q (List.mem_cons_of_mem _ hq) r hr
        · simp only [List.mem_singleton] at hr
          subst hr
          rw [Bool.eq_false_iff]
          intro htrue
          simp only [matchesTriple, Bool.and_eq_true, beq_iff_eq] at htrue
          rcases hrel q hq with hne | hne
          · exact hne htrue.1.2
          · exact hne htrue.2
      rw [ih _ hfresh2 ((List.pairwise_cons.mp hdist).2)]
      simp [rowsFrom, List.length_append]

/-- The rows produced by a fresh `add_set` carry, part by part, the fetched
part number, color id and quantity, and all carry the state computed from the
assembled flag. -/
theorem rowsFrom_projections (s : String) (st : PieceState) :
    ∀ (parts : List InventoryPart) (n : Nat),
      (rowsFrom s st n parts).map (fun r => (r.part_no, r.color_id, r.qty, r.state))
        = parts.map (fun p => (p.part_no, p.color_id, p.qty, st.value)) := by
  intro parts
  induction parts with
  | nil => intro n; simp [rowsFrom]
  | cons p ps ih => intro n; simp [rowsFrom, ih]

/-- C2: for a set whose metadata and inventory fetches both succeed, starting
from a store with no records for that set (no set record and no inventory
rows), `add_set` persists exactly one set record and exactly one inventory
row per fetched (part, color) pair — each with the fetched quantity and with
state `OWNED_LOCKED` iff `assembled` — and returns the persisted `LegoSet`. -/
theorem add_set_success_persists (fm : String → Except CatalogError SetMetadata)
    (fi : String → Except CatalogError (List InventoryPart))
    (st : Store) (set_no : String) (assembled : Bool) (m : SetMetadata)
    (parts : List InventoryPart)
    (hm : fm set_no = Except.ok m)
    (hp : fi set_no = Except.ok parts)
    (hdist : parts.Pairwise fun a b => a.part_no ≠ b.part_no ∨ a.color_id ≠ b.color_id)
    (hnoset : ∀ ls ∈ st.sets, ls.set_no ≠ set_no)
    (hfresh : ∀ r ∈ st.inventory, r.set_no ≠ set_no) :
    add_set fm fi st set_no assembled =
      Except.ok ({ set_no := set_no, name := m.name, assembled := assembled },
        { sets := st.sets ++ [{ set_no := set_no, name := m.name, assembled := assembled }],
          inventory := st.inventory ++
            rowsFrom set_no (if assembled then PieceState.OWNED_LOCKED else PieceState.OWNED_FREE)
              st.inventory.length parts }) ∧
    (rowsFrom set_no (if assembled then PieceState.OWNED_LOCKED else PieceState.OWNED_FREE)
        st.inventory.length parts).map (fun r => (r.part_no, r.color_id, r.qty, r.state))
      = parts.map (fun p => (p.part_no, p.color_id, p.qty,
          (if assembled then PieceState.OWNED_LOCKED else PieceState.OWNED_FREE).value)) := by
  constructor
  · have hrows : ∀ p ∈ parts, ∀ r ∈ st.inventory,
        matchesTriple set_no p.part_no p.color_id r = false := by
      intro p _ r hr
      simp [matchesTriple, hfresh r hr]
    have hins := sets_add_fresh st.sets
      { set_no := set_no, name := m.name, assembled := assembled }
      (fun s hs => hnoset s hs)
    simp only [add_set, hm, hp, except_mapError_ok, except_bind_ok, hins,
      except_pure_eq_ok]
    rw [foldl_add_part_fresh set_no
      (if assembled then PieceState.OWNED_LOCKED else PieceState.OWNED_FREE)
      parts st.inventory hrows hdist]
  · exact rowsFrom_projections _ _ parts _

/-- Witness for C2: adding set "8888" (two parts, quantities 4 and 2,
unassembled) to an empty store persists one set record and two `OWNED_FREE`
rows with those quantities. -/
theorem add_set_success_persists_witness :
    add_set (fun _ => Except.ok ⟨"8888", "Test Set", none, none, none, none, none, none⟩)
        (fun _ => Except.ok [⟨"3001", 1, 4, "Brick 2 x 4", false, false⟩,
                             ⟨"3020", 1, 2, "Plate 2 x 4", false, false⟩])
        ⟨[], []⟩ "8888" false =
      Except.ok ({ set_no := "8888", name := "Test Set", assembled := false },
        { sets := [{ set_no := "8888", name := "Test Set", assembled := false }],
          inventory :=
            rowsFrom "8888" (if false then PieceState.OWNED_LOCKED else PieceState.OWNED_FREE) 0
              [⟨"3001", 1, 4, "Brick 2 x 4", false, false⟩,
               ⟨"3020", 1, 2, "Plate 2 x 4", false, false⟩] }) ∧
    (rowsFrom "8888" (if false then PieceState.OWNED_LOCKED else PieceState.OWNED_FREE) 0
        [⟨"3001", 1, 4, "Brick 2 x 4", false, false⟩,
         ⟨"3020", 1, 2, "Plate 2 x 4", false, false⟩]).map
        (fun r => (r.part_no, r.color_id, r.qty, r.state))
      = [(⟨"3001", 1, 4, "Brick 2 x 4", false, false⟩ : InventoryPart),
         ⟨"3020", 1, 2, "Plate 2 x 4", false, false⟩].map
          (fun p => (p.part_no, p.color_id, p.qty,
            (if false then PieceState.OWNED_LOCKED else PieceState.OWNED_FREE).value)) :=
  add_set_success_persists _ _ ⟨[], []⟩ "8888" false
    ⟨"8888", "Test Set", none, none, none, none, none, none⟩
    [⟨"3001", 1, 4, "Brick 2 x 4", false, false⟩, ⟨"3020", 1, 2, "Plate 2 x 4", false, false⟩]
    rfl rfl (by decide) (by decide) (by decide)

/-- C1 (code evidence): `add_set` performs no usable-name check.  With a
metadata fetch that succeeds at the transport level but yields an empty
name, and a successful one-part inventory fetch, `add_set` on an empty store
returns success and persists both the set record (with empty name) and the
part's inventory row, instead of failing with a not-found domain error. -/
theorem add_set_empty_name_persists_anyway :
    add_set (fun _ => Except.ok ⟨"8888", "", none, none, none, none, none, none⟩)
        (fun _ => Except.ok [⟨"3001", 1, 4, "Brick 2 x 4", false, false⟩])
        ⟨[], []⟩ "8888" false
      = Except.ok (⟨"8888", "", false⟩,
          ⟨[⟨"8888", "", false⟩], [⟨0, "8888", "3001", 1, 4, "OWNED_FREE"⟩]⟩) := rfl

/-- A freshly written cache entry is visible at every instant before its
expiry. -/
theorem ttl_lookup_insert {α : Type} (c : TTLStore α) (now : Nat) (k : String)
    (v : α) (t : Nat) (h : t < now + c.ttl) :
    (c.insert now k v).lookup t k = some v := by
  simp [TTLStore.insert, TTLStore.lookup, List.find?_cons_of_pos, h]

/-- A metadata fetch that hits the cache returns the entry, leaves the cache
unchanged and issues no client call. -/
theorem fetch_set_metadata_hit (client : String → Except TransportFailure ItemResponse)
    (cache : TTLStore SetMetadata) (now : Nat) (set_no : String) (v : SetMetadata)
    (h : cache.lookup now set_no = some v) :
    fetch_set_metadata client cache now set_no = (.ok v, cache, 0) := by
  simp [fetch_set_metadata, h]

/-- A sequence of metadata fetches whose instants all hit a cached entry
issues no client call and leaves the cache unchanged. -/
theorem fetchMetadataMany_all_hits (client : String → Except TransportFailure ItemResponse)
    (set_no : String) (v : SetMetadata) :
    ∀ (ts : List Nat) (cache : TTLStore SetMetadata),
      (∀ t ∈ ts, cache.lookup t set_no = some v) →
      fetchMetadataMany client set_no cache ts = (cache, 0) := by
  intro ts
  induction ts with
  | nil => intro cache _; rfl
  | cons t ts ih =>
      intro cache h
      have h1 := fetch_set_metadata_hit client cache t set_no v (h t (List.mem_cons_self _ _))
      simp only [fetchMetadataMany, h1]
      rw [ih cache fun u hu => h u (List.mem_cons_of_mem _ hu)]
      simp

/-- C5: a fetch (metadata or inventory) finding a present, unexpired entry in
its dedicated cache returns that entry with zero client calls; starting from
a cold cache, any number of metadata fetches for the same set number at
instants within the time-to-live window of the first issues exactly one
client call in total; and a fetch that misses (e.g. after expiry) issues one
client call and stores the normalized result before returning it. -/
theorem catalog_fetch_cache_discipline (set_no : String) :
    (∀ (client : String → Except TransportFailure ItemResponse)
        (cache : TTLStore SetMetadata) (now : Nat) (v : SetMetadata),
      cache.lookup now set_no = some v →
      fetch_set_metadata client cache now set_no = (.ok v, cache, 0)) ∧
    (∀ (client : String → Except TransportFailure SubsetsResponse)
        (cache : TTLStore (List InventoryPart)) (now : Nat) (v : List InventoryPart),
      cache.lookup now set_no = some v →
      fetch_set_inventory client cache now set_no = (.ok v, cache, 0)) ∧
    (∀ (client : String → Except TransportFailure ItemResponse)
        (cache : TTLStore SetMetadata) (t1 : Nat) (ts : List Nat) (resp : ItemResponse),
      cache.lookup t1 set_no = none →
      client set_no = .ok resp →
      (∀ t ∈ ts, t < t1 + cache.ttl) →
      (fetchMetadataMany client set_no cache (t1 :: ts)).2 = 1) ∧
    (∀ (client : String → Except TransportFailure ItemResponse)
        (cache : TTLStore SetMetadata) (now : Nat) (resp : ItemResponse),
      cache.lookup now set_no = none →
      client set_no = .ok resp →
      fetch_set_metadata client cache now set_no =
        (.ok (normalize_metadata set_no resp),
         cache.insert now set_no (normalize_metadata set_no resp), 1)) := by
  refine ⟨fun client cache now v h => by simp [fetch_set_metadata, h],
          fun client cache now v h => by simp [fetch_set_inventory, h],
          ?_,
          fun client cache now resp hmiss hok => by simp [fetch_set_metadata, hmiss, hok]⟩
  intro client cache t1 ts resp hmiss hok hwin
  have hstep : fetch_set_metadata client cache t1 set_no =
      (.ok (normalize_metadata set_no resp),
       cache.insert t1 set_no (normalize_metadata set_no resp), 1) := by
    simp [fetch_set_metadata, hmiss, hok]
  simp only [fetchMetadataMany, hstep]
  rw [fetchMetadataMany_all_hits client set_no (normalize_metadata set_no resp) ts
    (cache.insert t1 set_no (normalize_metadata set_no resp))
    (fun t ht => ttl_lookup_insert cache t1 set_no _ t (hwin t ht))]
  simp

/-- Witness for C5: with a 100-unit TTL and a cold cache, three fetches of
set "8888" at instants 0, 50 and 99 issue exactly one client call, and the
fetch at instant 0 stores the normalized metadata; a warm cache is returned
as-is with zero calls. -/
theorem catalog_fetch_cache_discipline_witness :
    fetch_set_metadata (fun _ => Except.ok ⟨some ⟨some "8888", some "X", none, none, none, none, none⟩⟩)
        ⟨100, [("8888", ⟨60, ⟨"8888", "X", none, none, none, none, none, none⟩⟩)]⟩ 10 "8888"
      = (.ok ⟨"8888", "X", none, none, none, none, none, none⟩,
         ⟨100, [("8888", ⟨60, ⟨"8888", "X", none, none, none, none, none, none⟩⟩)]⟩, 0) ∧
    (fetchMetadataMany (fun _ => Except.ok ⟨some ⟨some "8888", some "X", none, none, none, none, none⟩⟩)
        "8888" ⟨100, []⟩ [0, 50, 99]).2 = 1 ∧
    fetch_set_metadata (fun _ => Except.ok ⟨some ⟨some "8888", some "X", none, none, none, none, none⟩⟩)
        ⟨100, []⟩ 0 "8888"
      = (.ok (normalize_metadata "8888" ⟨some ⟨some "8888", some "X", none, none, none, none, none⟩⟩),
         TTLStore.insert ⟨100, []⟩ 0 "8888"
           (normalize_metadata "8888" ⟨some ⟨some "8888", some "X", none, none, none, none, none⟩⟩), 1) :=
  ⟨(catalog_fetch_cache_discipline "8888").1 _ _ 10 _ (by decide),
   (catalog_fetch_cache_discipline "8888").2.2.1 _ ⟨100, []⟩ 0 [50, 99] _ (by decide) rfl (by decide),
   (catalog_fetch_cache_discipline "8888").2.2.2 _ ⟨100, []⟩ 0 _ (by decide) rfl⟩

/-- C5 counterexample: a failed fetch is not cached, so two metadata fetches
for the same set number at instants 0 and 1 — both inside one 86400-unit
time-to-live window — against a provider that reports 404 each issue a
network call: two calls, not at most one. -/
theorem catalog_fetch_cache_errors_not_cached :
    (fetchMetadataMany (fun _ => Except.error (.httpError 404 "HTTPError"))
        "8888" ⟨86400, []⟩ [0, 1]).2 = 2 := rfl

/-- C10: a transport-successful metadata payload whose `data` object is
absent or empty does not fail: it normalizes to a placeholder whose `set_no`
defaults to the requested number and whose name defaults to the empty string
(all other fields `None`); the placeholder is stored in the metadata cache
and served, with no further client call, for fetches within the
time-to-live. -/
theorem fetch_metadata_placeholder_default
    (client : String → Except TransportFailure ItemResponse)
    (cache : TTLStore SetMetadata) (now : Nat) (set_no : String) (resp : ItemResponse)
    (hmiss : cache.lookup now set_no = none)
    (hclient : client set_no = .ok resp)
    (hempty : resp.data = none ∨ resp.data = some ItemData.empty) :
    normalize_metadata set_no resp
      = { set_no := set_no, name := "", year := none, theme := none,
          num_parts := none, image_url := none, weight := none, dimensions := none } ∧
    fetch_set_metadata client cache now set_no
      = (.ok (normalize_metadata set_no resp),
         cache.insert now set_no (normalize_metadata set_no resp), 1) ∧
    ∀ t, t < now + cache.ttl →
      fetch_set_metadata client (cache.insert now set_no (normalize_metadata set_no resp)) t set_no
        = (.ok (normalize_metadata set_no resp),
           cache.insert now set_no (normalize_metadata set_no resp), 0) := by
  refine ⟨?_, by simp [fetch_set_metadata, hmiss, hclient], ?_⟩
  · rcases hempty with h | h <;>
      simp [normalize_metadata, h, ItemData.empty]
  · intro t ht
    exact fetch_set_metadata_hit client _ t set_no _
      (ttl_lookup_insert cache now set_no _ t ht)

/-- Witness for C10: a payload with an empty `data` object yields the
placeholder for set "9999", which is cached and served at a later instant
within the TTL. -/
theorem fetch_metadata_placeholder_default_witness :
    normalize_metadata "9999" ⟨some ItemData.empty⟩
      = { set_no := "9999", name := "", year := none, theme := none,
          num_parts := none, image_url := none, weight := none, dimensions := none } ∧
    fetch_set_metadata (fun _ => Except.ok ⟨some ItemData.empty⟩) ⟨86400, []⟩ 0 "9999"
      = (.ok (normalize_metadata "9999" ⟨some ItemData.empty⟩),
         TTLStore.insert ⟨86400, []⟩ 0 "9999" (normalize_metadata "9999" ⟨some ItemData.empty⟩), 1) ∧
    ∀ t, t < 0 + (⟨86400, []⟩ : TTLStore SetMetadata).ttl →
      fetch_set_metadata (fun _ => Except.ok ⟨some ItemData.empty⟩)
          (TTLStore.insert ⟨86400, []⟩ 0 "9999" (normalize_metadata "9999" ⟨some ItemData.empty⟩)) t "9999"
        = (.ok (normalize_metadata "9999" ⟨some ItemData.empty⟩),
           TTLStore.insert ⟨86400, []⟩ 0 "9999" (normalize_metadata "9999" ⟨some ItemData.empty⟩), 0) :=
  fetch_metadata_placeholder_default _ ⟨86400, []⟩ 0 "9999" ⟨some ItemData.empty⟩
    (by decide) rfl (Or.inr rfl)

/-- C4: exception translation is one function of the transport failure,
applied identically by the metadata and the inventory fetch: 401/403 map to
the authentication error, 404 to not-found, 429 to rate-limit, any other
4xx/5xx to a generic API error whose message carries the status code,
timeouts to the timeout error, connection failures to a generic API error,
and any other exception to a generic API error carrying the original
message. -/
theorem convert_exception_taxonomy (status : Nat) (msg : String) :
    ((status = 401 ∨ status = 403) →
      convert_exception (.httpError status msg)
        = .auth ("Bricklink authentication failed: " ++ msg)) ∧
    (status = 404 →
      convert_exception (.httpError status msg)
        = .notFound ("Set not found in Bricklink catalog: " ++ msg)) ∧
    (status = 429 →
      convert_exception (.httpError status msg)
        = .rateLimit ("Bricklink rate limit exceeded: " ++ msg)) ∧
    (400 ≤ status → status ≠ 401 → status ≠ 403 → status ≠ 404 → status ≠ 429 →
      ∃ s, convert_exception (.httpError status msg) = .api s ∧
        ∃ pre post, s = pre ++ toString status ++ post) ∧
    convert_exception (.timeout msg) = .timeout ("Bricklink request timed out: " ++ msg) ∧
    convert_exception (.connectionError msg) = .api ("Failed to connect to Bricklink: " ++ msg) ∧
    (∃ pre, convert_exception (.other msg) = .api (pre ++ msg)) ∧
    (∀ (client : String → Except TransportFailure ItemResponse)
        (cache : TTLStore SetMetadata) (now : Nat) (sn : String) (e : TransportFailure),
      cache.lookup now sn = none → client sn = .error e →
      (fetch_set_metadata client cache now sn).1 = .error (convert_exception e)) ∧
    (∀ (client : String → Except TransportFailure SubsetsResponse)
        (cache : TTLStore (List InventoryPart)) (now : Nat) (sn : String) (e : TransportFailure),
      cache.lookup now sn = none → client sn = .error e →
      (fetch_set_inventory client cache now sn).1 = .error (convert_exception e)) := by
  refine ⟨?_, ?_, ?_, ?_, rfl, rfl, ⟨"Bricklink API error: ", rfl⟩,
          fun client cache now sn e hmiss herr => by simp [fetch_set_metadata, hmiss, herr],
          fun client cache now sn e hmiss herr => by simp [fetch_set_inventory, hmiss, herr]⟩
  · rintro (rfl | rfl) <;> rfl
  · rintro rfl; rfl
  · rintro rfl; rfl
  · intro _ h401 h403 h404 h429
    refine ⟨"Bricklink API error (status " ++ toString status ++ "): " ++ msg, ?_,
            "Bricklink API error (status ", "): " ++ msg, by simp [String.append_assoc]⟩
    simp [convert_exception, h401, h403, h404, h429]

/-- Witness for C4 at concrete statuses: 403 → auth, 404 → not-found,
429 → rate-limit, 500 → generic API error carrying "500", and a timed-out
metadata fetch surfaces the converted timeout error. -/
theorem convert_exception_taxonomy_witness :
    convert_exception (.httpError 403 "f") = .auth ("Bricklink authentication failed: " ++ "f") ∧
    convert_exception (.httpError 404 "f") = .notFound ("Set not found in Bricklink catalog: " ++ "f") ∧
    convert_exception (.httpError 429 "f") = .rateLimit ("Bricklink rate limit exceeded: " ++ "f") ∧
    (∃ s, convert_exception (.httpError 500 "f") = .api s ∧
      ∃ pre post, s = pre ++ toString 500 ++ post) ∧
    (fetch_set_metadata (fun _ => Except.error (.timeout "t")) ⟨86400, []⟩ 0 "8888").1
      = .error (convert_exception (.timeout "t")) :=
  ⟨(convert_exception_taxonomy 403 "f").1 (Or.inr rfl),
   (convert_exception_taxonomy 404 "f").2.1 rfl,
   (convert_exception_taxonomy 429 "f").2.2.1 rfl,
   (convert_exception_taxonomy 500 "f").2.2.2.1 (by decide) (by decide) (by decide)
     (by decide) (by decide),
   (convert_exception_taxonomy 0 "x").2.2.2.2.2.2.2.1 _ ⟨86400, []⟩ 0 "8888" _ (by decide) rfl⟩

/-- C6 (code evidence): the decorator retries only exceptions that are
builtin `ConnectionError`/`TimeoutError` instances, but the session raises
the `requests` transport exceptions, which are not; so a connection error or
timeout raised by the underlying HTTP call ends `get`/`post` after the first
attempt with no retry and no backoff wait, while an exception that IS a
builtin `ConnectionError` would be retried up to 3 attempts with waits
[2, 4].  An HTTP 4xx/5xx response is likewise raised at once. -/
theorem oauth_transient_not_retried :
    oauthGet (fun _ => .raised (.requestsConnectionError "connection refused"))
      = (.raisedExc (.requestsConnectionError "connection refused"), 1, []) ∧
    oauthPost (fun _ => .raised (.requestsTimeout "request timed out"))
      = (.raisedExc (.requestsTimeout "request timed out"), 1, []) ∧
    oauthGet (fun _ => .raised (.builtinConnectionError "refused"))
      = (.raisedExc (.builtinConnectionError "refused"), 3, [2, 4]) ∧
    oauthGet (fun _ => .response 500) = (.httpError 500, 1, []) ∧
    oauthPost (fun _ => .response 500) = (.httpError 500, 1, []) :=
  ⟨rfl, rfl, rfl, rfl, rfl⟩

/-- Helper for C7: filtering-by-guard inside `filterMap` is filtering then
mapping. -/
theorem filterMap_part_guard (l : List SubsetEntry) :
    (l.filterMap fun e => if entryType e == some "PART" then some (entryToPart e) else none)
      = (l.filter fun e => entryType e == some "PART").map entryToPart := by
  induction l with
  | nil => rfl
  | cons a l ih =>
      simp only [beq_iff_eq] at ih
      by_cases h : entryType a = some "PART" <;>
        simp [List.filterMap_cons, List.filter_cons, h, ih]

/-- Helper for C7: the filter-inside-flatten loop equals filtering the
flattened entry list. -/
theorem flatMap_filterMap_part (L : List SubsetBlock) :
    (L.flatMap fun block =>
        (block.entries.getD []).filterMap fun e =>
          if entryType e == some "PART" then some (entryToPart e) else none)
      = ((L.flatMap fun block => block.entries.getD []).filter
          fun e => entryType e == some "PART").map entryToPart := by
  induction L with
  | nil => rfl
  | cons b L ih =>
      simp only [List.flatMap_cons, List.filter_append, List.map_append]
      rw [ih, filterMap_part_guard]

/-- C7: inventory normalization returns exactly the flattened entries whose
item type is exactly `"PART"` — minifigure and nested-set entries embedded
in the raw payload are excluded — and on a payload holding one part, one
minifigure and one nested set entry the returned list has length 1. -/
theorem inventory_normalization_filters_parts :
    (∀ resp : SubsetsResponse,
      normalize_inventory resp
        = ((flattenEntries resp).filter fun e => entryType e == some "PART").map entryToPart) ∧
    (normalize_inventory ⟨some [⟨some [
        ⟨some ⟨some "PART", some "3001", some "Brick 2 x 4"⟩, some 1, some 4, some false, some false⟩,
        ⟨some ⟨some "MINIFIG", some "sw0001", some "Figure"⟩, some 0, some 1, some false, some false⟩,
        ⟨some ⟨some "SET", some "1234-1", some "Nested set"⟩, some 0, some 1, some false, some false⟩]⟩]⟩).length
      = 1 := by
  constructor
  · intro resp
    unfold normalize_inventory flattenEntries
    exact flatMap_filterMap_part _
  · rfl

end Lego
